import Mathlib

/-!
Verification development for the `code-heals-itself` self-healing orchestrator
(Python sources). The definitions below are a shallow embedding of the
relevant program parts:

* JSON values are modelled by the inductive `Json`; Python dicts are
  association lists (`JObj`), with Python dict-update semantics given by
  `setKey` (update in place if the key exists, else append).
* `json.dumps(obj, sort_keys=True, separators=(",", ":"))` is modelled by
  `canonical` (keys sorted recursively, no whitespace).  The exact textual
  rendering of numbers and string escapes is a modelling choice; no theorem
  below depends on it, only on `canonical` being a function of its input.
* SHA-256 itself is a fixed, opaque-to-the-program hex function; every
  program path computes and compares hashes through the single helper
  `sha256_json`.  The development is therefore parameterised by the
  underlying hex function `hashFn : String → String`; all invariants proved
  here hold for every choice of `hashFn`, and witnesses instantiate it
  concretely.
* Python truthiness of dicts (`if not d`) is modelled by emptiness.
-/

inductive Json where
  | null : Json
  | bool (b : Bool) : Json
  | num (q : ℚ) : Json
  | str (s : String) : Json
  | arr (elems : List Json) : Json
  | obj (fields : List (String × Json)) : Json

/-- A Python dict modelled as an association list (insertion order kept). -/
abbrev JObj := List (String × Json)

/-- `d.get(k)` as an `Option`: first binding of the key, if any. -/
def lookupKey {β : Type} (k : String) : List (String × β) → Option β
  | [] => none
  | (k', v) :: rest => if k' = k then some v else lookupKey k rest

/-- `d[k] = v` with Python dict semantics: overwrite the existing binding in
place, else append a new binding at the end. -/
def setKey {β : Type} (k : String) (v : β) : List (String × β) → List (String × β)
  | [] => [(k, v)]
  | (k', v') :: rest => if k' = k then (k, v) :: rest else (k', v') :: setKey k v rest

/-- `del d[k]`: drop every binding of the key. -/
def delKey {β : Type} (k : String) (l : List (String × β)) : List (String × β) :=
  l.filter (fun kv => kv.1 ≠ k)

/-- `d.get(k, default)`. -/
def getKeyD (o : JObj) (k : String) (d : Json) : Json :=
  (lookupKey k o).getD d

/-- `d.get(k)` where a missing key yields Python `None` (JSON null). -/
def pyGet (o : JObj) (k : String) : Json :=
  getKeyD o k .null

/-- Truthiness of an optional Python dict: `None` and `{}` are falsy. -/
def truthyObj : Option JObj → Bool
  | none => false
  | some o => !o.isEmpty

/-- Ordering of key/value pairs by key, as used by `sort_keys=True`. -/
def keyLe {β : Type} (a b : String × β) : Prop := a.1 ≤ b.1

instance {β : Type} : DecidableRel (@keyLe β) :=
  fun a b => inferInstanceAs (Decidable (a.1 ≤ b.1))

instance {β : Type} : IsTotal (String × β) keyLe := ⟨fun a b => le_total a.1 b.1⟩

instance {β : Type} : IsTrans (String × β) keyLe := ⟨fun _ _ _ h1 h2 => le_trans h1 h2⟩

/-- Stable sort of dict entries by key (Python `sorted(d.items())`). -/
def sortByKey {β : Type} (l : List (String × β)) : List (String × β) :=
  l.insertionSort keyLe

/-- JSON string literal rendering (quote and backslash escaped). -/
def renderString (s : String) : String :=
  "\"" ++ String.mk (s.data.foldr
    (fun c acc => if c = '"' ∨ c = '\\' then '\\' :: c :: acc else c :: acc) []) ++ "\""

/-- Comma-join, as in a JSON array/object body. -/
def joinComma : List String → String
  | [] => ""
  | [s] => s
  | s :: rest@(_ :: _) => s ++ "," ++ joinComma rest

/-- Canonical JSON: `json.dumps(x, sort_keys=True, separators=(",", ":"))` —
keys sorted at every object node, no whitespace. -/
def canonical : Json → String
  | .null => "null"
  | .bool true => "true"
  | .bool false => "false"
  | .num q => toString q
  | .str s => renderString s
  | .arr elems =>
      "[" ++ joinComma (elems.attach.map (fun e => canonical e.1)) ++ "]"
  | .obj fields =>
      "\x7b" ++ joinComma ((sortByKey (fields.attach.map
          (fun f => (f.1.1, canonical f.1.2)))).map
          (fun kv => renderString kv.1 ++ ":" ++ kv.2)) ++ "\x7d"
  termination_by j => sizeOf j
  decreasing_by
    · have := List.sizeOf_lt_of_mem e.2
      simp only [Json.arr.sizeOf_spec]
      omega
    · have h1 := List.sizeOf_lt_of_mem f.2
      have h2 : sizeOf f.1.2 < sizeOf f.1 := by
        obtain ⟨k, v⟩ := f.1
        simp only [Prod.mk.sizeOf_spec]
        omega
      simp only [Json.obj.sizeOf_spec]
      omega

theorem canonical_obj (fields : JObj) :
    canonical (.obj fields) =
      "\x7b" ++ joinComma ((sortByKey (fields.map
          (fun kv => (kv.1, canonical kv.2)))).map
          (fun kv => renderString kv.1 ++ ":" ++ kv.2)) ++ "\x7d" := by
  rw [canonical]
  rw [List.attach_map_val fields (fun kv => (kv.1, canonical kv.2))]

/-! ### Association-list lemmas

Python dicts have unique keys; `NodupKeys` captures that, and the lemmas
below relate first-match lookup, membership, permutation and key-sorting.
-/

/-- Keys of a dict are pairwise distinct. -/
def NodupKeys {β : Type} (l : List (String × β)) : Prop := (l.map Prod.fst).Nodup

theorem lookupKey_nil {β : Type} {k : String} : lookupKey k ([] : List (String × β)) = none := rfl

theorem lookupKey_cons_self {β : Type} {k : String} {v : β} {t : List (String × β)} :
    lookupKey k ((k, v) :: t) = some v := by
  simp [lookupKey]

theorem lookupKey_cons_ne {β : Type} {k k' : String} {v : β} {t : List (String × β)}
    (h : k' ≠ k) : lookupKey k ((k', v) :: t) = lookupKey k t := by
  simp [lookupKey, h]

theorem nodupKeys_cons {β : Type} {k : String} {v : β} {t : List (String × β)}
    (h : NodupKeys ((k, v) :: t)) : k ∉ t.map Prod.fst ∧ NodupKeys t := by
  simpa [NodupKeys] using h

theorem lookupKey_eq_none_iff {β : Type} {k : String} :
    ∀ {l : List (String × β)}, lookupKey k l = none ↔ k ∉ l.map Prod.fst := by
  intro l
  induction l with
  | nil => simp [lookupKey]
  | cons hd tl ih =>
      obtain ⟨k', v'⟩ := hd
      by_cases hk : k' = k
      · subst hk
        simp [lookupKey_cons_self]
      · rw [lookupKey_cons_ne hk]
        simp only [List.map_cons, List.mem_cons]
        rw [ih]
        constructor
        · intro h hor
          rcases hor with heq | hmem
          · exact hk heq.symm
          · exact h hmem
        · intro h hmem
          exact h (Or.inr hmem)

theorem mem_of_lookupKey_eq_some {β : Type} {k : String} {v : β} :
    ∀ {l : List (String × β)}, lookupKey k l = some v → (k, v) ∈ l := by
  intro l
  induction l with
  | nil => simp [lookupKey]
  | cons hd tl ih =>
      obtain ⟨k', v'⟩ := hd
      by_cases hk : k' = k
      · subst hk
        rw [lookupKey_cons_self]
        intro h
        cases h
        exact List.mem_cons_self _ _
      · rw [lookupKey_cons_ne hk]
        intro h
        exact List.mem_cons_of_mem _ (ih h)

theorem lookupKey_eq_some_of_mem {β : Type} {k : String} {v : β} :
    ∀ {l : List (String × β)}, NodupKeys l → (k, v) ∈ l → lookupKey k l = some v := by
  intro l
  induction l with
  | nil => simp
  | cons hd tl ih =>
      obtain ⟨k', v'⟩ := hd
      intro hnd hmem
      obtain ⟨hhead, hnd'⟩ := nodupKeys_cons hnd
      rcases List.mem_cons.mp hmem with heq | htl
      · cases heq
        exact lookupKey_cons_self
      · by_cases hk : k' = k
        · subst hk
          exact absurd (List.mem_map.mpr ⟨(k', v), htl, rfl⟩) hhead
        · rw [lookupKey_cons_ne hk]
          exact ih hnd' htl

theorem lookupKey_perm {β : Type} {l l' : List (String × β)} (hp : l.Perm l')
    (hnd : NodupKeys l) (k : String) : lookupKey k l = lookupKey k l' := by
  have hnd' : NodupKeys l' := ((hp.map Prod.fst).nodup_iff).mp hnd
  cases h : lookupKey k l with
  | none =>
      have hk : k ∉ l.map Prod.fst := lookupKey_eq_none_iff.mp h
      have hk' : k ∉ l'.map Prod.fst := fun hmem => hk ((hp.map Prod.fst).mem_iff.mpr hmem)
      exact (lookupKey_eq_none_iff.mpr hk').symm
  | some v =>
      have hmem : (k, v) ∈ l' := hp.mem_iff.mp (mem_of_lookupKey_eq_some h)
      exact (lookupKey_eq_some_of_mem hnd' hmem).symm

theorem sorted_lookupKey_ext {β : Type} :
    ∀ (l1 l2 : List (String × β)), l1.Sorted keyLe → l2.Sorted keyLe →
      NodupKeys l1 → NodupKeys l2 →
      (∀ k, lookupKey k l1 = lookupKey k l2) → l1 = l2 := by
  intro l1
  induction l1 with
  | nil =>
      intro l2 _ _ _ _ hagree
      cases l2 with
      | nil => rfl
      | cons hd tl =>
          obtain ⟨k2, v2⟩ := hd
          have h1 : (none : Option β) = some v2 := by
            rw [← @lookupKey_nil β k2, hagree k2, lookupKey_cons_self]
          exact absurd h1 (by simp)
  | cons hd1 tl1 ih =>
      intro l2 hs1 hs2 hnd1 hnd2 hagree
      obtain ⟨k1, v1⟩ := hd1
      cases l2 with
      | nil =>
          have h1 : (some v1 : Option β) = none := by
            rw [← @lookupKey_cons_self β k1 v1 tl1, hagree k1, lookupKey_nil]
          exact absurd h1 (by simp)
      | cons hd2 tl2 =>
          obtain ⟨k2, v2⟩ := hd2
          have hmem2 : (k2, v2) ∈ (k1, v1) :: tl1 :=
            mem_of_lookupKey_eq_some (by rw [hagree k2]; exact lookupKey_cons_self)
          have hmem1 : (k1, v1) ∈ (k2, v2) :: tl2 :=
            mem_of_lookupKey_eq_some (by rw [← hagree k1]; exact lookupKey_cons_self)
          have hle1 : k1 ≤ k2 := by
            rcases List.mem_cons.mp hmem2 with heq | htl
            · exact le_of_eq (congrArg Prod.fst heq).symm
            · exact (List.sorted_cons.mp hs1).1 _ htl
          have hle2 : k2 ≤ k1 := by
            rcases List.mem_cons.mp hmem1 with heq | htl
            · exact le_of_eq (congrArg Prod.fst heq).symm
            · exact (List.sorted_cons.mp hs2).1 _ htl
          have hkeq : k1 = k2 := le_antisymm hle1 hle2
          subst hkeq
          have hveq : v1 = v2 := by
            have h := hagree k1
            rw [lookupKey_cons_self, lookupKey_cons_self] at h
            exact Option.some.inj h
          subst hveq
          obtain ⟨hhead1, hnd1'⟩ := nodupKeys_cons hnd1
          obtain ⟨hhead2, hnd2'⟩ := nodupKeys_cons hnd2
          have hagree' : ∀ k, lookupKey k tl1 = lookupKey k tl2 := by
            intro k
            by_cases hk : k = k1
            · subst hk
              rw [lookupKey_eq_none_iff.mpr hhead1, lookupKey_eq_none_iff.mpr hhead2]
            · have h := hagree k
              rw [lookupKey_cons_ne (fun he => hk he.symm),
                lookupKey_cons_ne (fun he => hk he.symm)] at h
              exact h
          have : tl1 = tl2 :=
            ih tl2 (List.sorted_cons.mp hs1).2 (List.sorted_cons.mp hs2).2
              hnd1' hnd2' hagree'
          rw [this]

theorem sortByKey_sorted {β : Type} (l : List (String × β)) :
    (sortByKey l).Sorted keyLe :=
  List.sorted_insertionSort keyLe l

theorem sortByKey_perm {β : Type} (l : List (String × β)) : (sortByKey l).Perm l :=
  List.perm_insertionSort keyLe l

theorem sortByKey_ext {β : Type} (l1 l2 : List (String × β))
    (hnd1 : NodupKeys l1) (hnd2 : NodupKeys l2)
    (hagree : ∀ k, lookupKey k l1 = lookupKey k l2) : sortByKey l1 = sortByKey l2 := by
  have hp1 := sortByKey_perm l1
  have hp2 := sortByKey_perm l2
  have hnds1 : NodupKeys (sortByKey l1) := ((hp1.map Prod.fst).nodup_iff).mpr hnd1
  have hnds2 : NodupKeys (sortByKey l2) := ((hp2.map Prod.fst).nodup_iff).mpr hnd2
  exact sorted_lookupKey_ext _ _ (sortByKey_sorted l1) (sortByKey_sorted l2) hnds1 hnds2
    (fun k => by
      rw [lookupKey_perm hp1 hnds1 k, lookupKey_perm hp2 hnds2 k]
      exact hagree k)

theorem keys_map_value {β γ : Type} (f : β → γ) (l : List (String × β)) :
    (l.map (fun kv => (kv.1, f kv.2))).map Prod.fst = l.map Prod.fst := by
  induction l with
  | nil => rfl
  | cons hd tl ih => simp [ih]

theorem lookupKey_map_value {β γ : Type} (f : β → γ) (k : String) :
    ∀ (l : List (String × β)),
      lookupKey k (l.map (fun kv => (kv.1, f kv.2))) = (lookupKey k l).map f := by
  intro l
  induction l with
  | nil => rfl
  | cons hd tl ih =>
      obtain ⟨k', v'⟩ := hd
      by_cases hk : k' = k
      · subst hk
        simp [lookupKey_cons_self]
      · simp only [List.map_cons]
        rw [lookupKey_cons_ne hk, lookupKey_cons_ne hk, ih]

theorem nodupKeys_filter {β : Type} (p : String → Bool) {l : List (String × β)}
    (h : NodupKeys l) : NodupKeys (l.filter (fun kv => p kv.1)) := by
  have hsub : (l.filter (fun kv => p kv.1)).Sublist l := List.filter_sublist l
  exact (hsub.map Prod.fst).nodup h

theorem lookupKey_filter_of_pos {β : Type} (p : String → Bool) {k : String}
    (hk : p k = true) :
    ∀ (l : List (String × β)), lookupKey k (l.filter (fun kv => p kv.1)) = lookupKey k l := by
  intro l
  induction l with
  | nil => rfl
  | cons hd tl ih =>
      obtain ⟨k', v'⟩ := hd
      by_cases hkk : k' = k
      · subst hkk
        rw [List.filter_cons_of_pos (by simpa using hk), lookupKey_cons_self,
          lookupKey_cons_self]
      · cases hp : p k' with
        | true =>
            rw [List.filter_cons_of_pos (by simpa using hp), lookupKey_cons_ne hkk,
              lookupKey_cons_ne hkk, ih]
        | false =>
            rw [List.filter_cons_of_neg (by simpa using hp), lookupKey_cons_ne hkk, ih]

theorem lookupKey_filter_of_neg {β : Type} (p : String → Bool) {k : String}
    (hk : p k = false) (l : List (String × β)) :
    lookupKey k (l.filter (fun kv => p kv.1)) = none := by
  rw [lookupKey_eq_none_iff]
  intro hmem
  obtain ⟨⟨k', v'⟩, hmem', hfst⟩ := List.mem_map.mp hmem
  obtain ⟨_, hp⟩ := List.mem_filter.mp hmem'
  cases hfst
  rw [hk] at hp
  exact absurd hp (by simp)

theorem filter_setKey_of_neg {β : Type} (p : String → Bool) {k : String}
    (hk : p k = false) (v : β) :
    ∀ (l : List (String × β)),
      (setKey k v l).filter (fun kv => p kv.1) = l.filter (fun kv => p kv.1) := by
  intro l
  induction l with
  | nil =>
      rw [show (setKey k v [] : List (String × β)) = [(k, v)] from rfl,
        List.filter_cons_of_neg (by simpa using hk)]
  | cons hd tl ih =>
      obtain ⟨k', v'⟩ := hd
      by_cases hkk : k' = k
      · subst hkk
        have hset : setKey k' v ((k', v') :: tl) = (k', v) :: tl := by simp [setKey]
        rw [hset, List.filter_cons_of_neg (by simpa using hk),
          List.filter_cons_of_neg (by simpa using hk)]
      · simp only [setKey, if_neg hkk]
        cases hp : p k' with
        | true =>
            rw [List.filter_cons_of_pos (by simpa using hp),
              List.filter_cons_of_pos (by simpa using hp), ih]
        | false =>
            rw [List.filter_cons_of_neg (by simpa using hp),
              List.filter_cons_of_neg (by simpa using hp), ih]

/-! ### Envelope hashing and envelope helpers

Mirrors of `src/utils/python/envelope_helpers.py` and the hashing helper
`sha256_json` of `src/ai-debugging.py`.
-/

/-- `VOLATILE_KEYS` of `envelope_helpers.py` (line 151), verbatim. -/
def VOLATILE_KEYS : List String :=
  ["attempts", "timestamp", "envelopeHash", "developer_message", "developerMessage",
   "developer_flag_reason", "timeline"]

/-- The non-volatile projection `{k: v for k, v in env.items() if k not in VOLATILE_KEYS}`. -/
def nonVolatile (env : JObj) : JObj :=
  env.filter (fun kv => decide (kv.1 ∉ VOLATILE_KEYS))

/-- `json_dumps_stable` — canonical JSON text. -/
def json_dumps_stable (x : Json) : String := canonical x

/-- `sha256_json(obj)` of `ai-debugging.py` (lines 59–65): hex digest of the
canonical JSON.  `hashFn` stands for `sha256(·).hexdigest()`. -/
def sha256_json (hashFn : String → String) (obj : Json) : String :=
  hashFn (canonical obj)

/-- `compute_stable_envelope_hash` of `envelope_helpers.py` (lines 153–160). -/
def compute_stable_envelope_hash (hashFn : String → String) (env : JObj) : String :=
  hashFn (json_dumps_stable (.obj (nonVolatile env)))

/-- The list stored under a key, `[]` when missing or not a list (mirrors
`_ensure_attempts` / the `timeline` guard). -/
def getListKey (env : JObj) (k : String) : List Json :=
  match lookupKey k env with
  | some (.arr xs) => xs
  | _ => []

/-- Truthiness of an optional Python string (`None` and `""` are falsy). -/
def truthyStr : Option String → Bool
  | none => false
  | some s => !(s = "")

/-- A numeric field with a default. -/
def getNumKey (env : JObj) (k : String) (d : ℚ) : ℚ :=
  match lookupKey k env with
  | some (.num q) => q
  | _ => d

/-- `_clamp01` (None passes through; ℚ has no NaN, so that guard is vacuous). -/
def clamp01 (x : ℚ) : ℚ := max 0 (min 1 x)

/-- `append_attempt` (envelope_helpers.py lines 53–64); `ts` is the resolved
epoch timestamp. -/
def append_attempt (env : JObj) (ts : ℚ) (success : Bool) (note : String)
    (breaker_state : Option String) (failure_count : Option ℤ) : JObj :=
  let rec0 : JObj := [("ts", .num ts), ("success", .bool success)]
  let rec1 : JObj := if note = "" then rec0 else rec0 ++ [("note", .str note)]
  let rec2 : JObj :=
    if truthyStr breaker_state then
      let b : JObj := [("state", .str (breaker_state.getD ""))]
      let b : JObj := match failure_count with
        | some n => b ++ [("failure_count", .num n)]
        | none => b
      rec1 ++ [("breaker", .obj b)]
    else rec1
  setKey "attempts" (.arr (getListKey env "attempts" ++ [.obj rec2])) env

/-- `mark_success` (envelope_helpers.py lines 138–142): dict-level, latching. -/
def mark_success (env : JObj) (success : Bool) : JObj :=
  match lookupKey "success" env with
  | some (.bool true) => env
  | _ => setKey "success" (.bool success) env

/-- `set_envelope_timestamp` (lines 146–148); `iso` is the resolved ISO string. -/
def set_envelope_timestamp (env : JObj) (iso : String) : JObj :=
  setKey "timestamp" (.str iso) env

/-- `set_envelope_hash` (lines 164–166). -/
def set_envelope_hash (hashFn : String → String) (env : JObj) : JObj :=
  setKey "envelopeHash" (.str (compute_stable_envelope_hash hashFn env)) env

/-- `apply_developer_flag` (lines 128–134). -/
def apply_developer_flag (env : JObj) (flagged : Bool) (message : Option String)
    (reason_code : Option String) : JObj :=
  let env1 := setKey "flagged_for_developer" (.bool flagged) env
  let env2 := if flagged && truthyStr message
    then setKey "developer_message" (.str (message.getD "")) env1 else env1
  if flagged && truthyStr reason_code
    then setKey "developer_flag_reason" (.str (reason_code.getD "")) env2 else env2

/-- `update_counters` (lines 170–179). -/
def update_counters (env : JObj) (kind : String) (errors_resolved : ℤ) : JObj :=
  let c : JObj := match lookupKey "counters" env with
    | some (.obj c) => c
    | _ => []
  let c := setKey "totalAttempts" (.num (getNumKey c "totalAttempts" 0 + 1)) c
  let c := if kind = "syntax"
    then setKey "syntaxAttempts" (.num (getNumKey c "syntaxAttempts" 0 + 1)) c else c
  let c := if kind = "logic"
    then setKey "logicAttempts" (.num (getNumKey c "logicAttempts" 0 + 1)) c else c
  let c := setKey "errorsResolvedTotal"
    (.num (getNumKey c "errorsResolvedTotal" 0 + max 0 (errors_resolved : ℚ))) c
  setKey "counters" (.obj c) env

/-- `add_timeline_entry` (lines 183–195); `nowIso` is the resolved ISO time. -/
def add_timeline_entry (env : JObj) (attempt : ℚ) (nowIso : String)
    (errors_detected errors_resolved : Option ℤ) (overall_confidence : Option ℚ)
    (breaker_state : Option String) (action : Option String) : JObj :=
  let optNum : Option ℤ → Json := fun x => match x with
    | some n => .num n
    | none => .null
  let optStr : Option String → Json := fun x => match x with
    | some s => .str s
    | none => .null
  let entry : JObj :=
    [("attempt", .num attempt), ("ts", .str nowIso),
     ("errorsDetected", optNum errors_detected),
     ("errorsResolved", optNum errors_resolved),
     ("overallConfidence", match overall_confidence with
       | some q => .num q
       | none => .null),
     ("breakerState", optStr breaker_state), ("action", optStr action)]
  setKey "timeline" (.arr (getListKey env "timeline" ++ [.obj entry])) env

/-- `update_trend` (lines 81–97). -/
def update_trend (env : JObj) (errors_detected errors_resolved : ℚ)
    (quality_score improvement_velocity stagnation_risk : Option ℚ) : JObj :=
  let ed : ℚ := max 0 errors_detected
  let er : ℚ := max 0 errors_resolved
  let trend : String :=
    if er > 0 then "improving"
    else match improvement_velocity with
      | some v => if v < 0 then "worsening" else "plateauing"
      | none => "unknown"
  let optClamp : Option ℚ → Json := fun x => match x with
    | some q => .num (clamp01 q)
    | none => .null
  setKey "trendMetadata" (.obj
    [("errorsDetected", .num ed), ("errorsResolved", .num er),
     ("errorTrend", .str trend),
     ("codeQualityScore", optClamp quality_score),
     ("improvementVelocity", optClamp improvement_velocity),
     ("stagnationRisk", optClamp stagnation_risk)]) env

/-! ### Stability of the envelope hash -/

theorem stable_hash_ext (hashFn : String → String) (e1 e2 : JObj)
    (h1 : NodupKeys e1) (h2 : NodupKeys e2)
    (hagree : ∀ k, k ∉ VOLATILE_KEYS → lookupKey k e1 = lookupKey k e2) :
    compute_stable_envelope_hash hashFn e1 = compute_stable_envelope_hash hashFn e2 := by
  unfold compute_stable_envelope_hash json_dumps_stable
  congr 1
  rw [canonical_obj, canonical_obj]
  suffices h : sortByKey ((nonVolatile e1).map (fun kv => (kv.1, canonical kv.2)))
      = sortByKey ((nonVolatile e2).map (fun kv => (kv.1, canonical kv.2))) by
    rw [h]
  apply sortByKey_ext
  · show ((((nonVolatile e1)).map (fun kv => (kv.1, canonical kv.2))).map Prod.fst).Nodup
    rw [keys_map_value]
    exact nodupKeys_filter (fun s => decide (s ∉ VOLATILE_KEYS)) h1
  · show ((((nonVolatile e2)).map (fun kv => (kv.1, canonical kv.2))).map Prod.fst).Nodup
    rw [keys_map_value]
    exact nodupKeys_filter (fun s => decide (s ∉ VOLATILE_KEYS)) h2
  · intro k
    rw [lookupKey_map_value, lookupKey_map_value]
    suffices h : lookupKey k (nonVolatile e1) = lookupKey k (nonVolatile e2) by rw [h]
    by_cases hv : k ∈ VOLATILE_KEYS
    · have g1 : lookupKey k (nonVolatile e1) = none :=
        lookupKey_filter_of_neg (fun s => decide (s ∉ VOLATILE_KEYS)) (by simp [hv]) e1
      have g2 : lookupKey k (nonVolatile e2) = none :=
        lookupKey_filter_of_neg (fun s => decide (s ∉ VOLATILE_KEYS)) (by simp [hv]) e2
      rw [g1, g2]
    · have g1 : lookupKey k (nonVolatile e1) = lookupKey k e1 :=
        lookupKey_filter_of_pos (fun s => decide (s ∉ VOLATILE_KEYS)) (by simp [hv]) e1
      have g2 : lookupKey k (nonVolatile e2) = lookupKey k e2 :=
        lookupKey_filter_of_pos (fun s => decide (s ∉ VOLATILE_KEYS)) (by simp [hv]) e2
      rw [g1, g2]
      exact hagree k hv

theorem hash_setKey_volatile (hashFn : String → String) {k : String}
    (hk : k ∈ VOLATILE_KEYS) (v : Json) (env : JObj) :
    compute_stable_envelope_hash hashFn (setKey k v env)
      = compute_stable_envelope_hash hashFn env := by
  unfold compute_stable_envelope_hash json_dumps_stable
  congr 2
  have h : (setKey k v env).filter (fun kv => decide (kv.1 ∉ VOLATILE_KEYS))
      = env.filter (fun kv => decide (kv.1 ∉ VOLATILE_KEYS)) :=
    filter_setKey_of_neg (fun s => decide (s ∉ VOLATILE_KEYS)) (by simp [hk]) v env
  exact congrArg Json.obj h

/-- The volatile set named by the specification (the implementation's
`VOLATILE_KEYS` additionally lists the `developerMessage` spelling). -/
def SPEC_VOLATILE : List String :=
  ["attempts", "timestamp", "envelopeHash", "developer_message",
   "developer_flag_reason", "timeline"]

/-- C3.  Envelope hash stability: payloads with identical content on every
field outside the volatile set `{attempts, timestamp, envelopeHash,
developer_message, developer_flag_reason, timeline}` get the same
`compute_stable_envelope_hash`; and appending to `attempts` or `timeline`,
or updating `timestamp`, `developer_message` or `developer_flag_reason`,
leaves the computed hash unchanged. -/
theorem C3_envelope_hash_stability (hashFn : String → String) :
    (∀ e1 e2 : JObj, NodupKeys e1 → NodupKeys e2 →
        (∀ k, k ∉ SPEC_VOLATILE → lookupKey k e1 = lookupKey k e2) →
        compute_stable_envelope_hash hashFn e1 = compute_stable_envelope_hash hashFn e2)
    ∧ (∀ env ts success note bs fc,
        compute_stable_envelope_hash hashFn (append_attempt env ts success note bs fc)
          = compute_stable_envelope_hash hashFn env)
    ∧ (∀ env a iso ed er oc bs act,
        compute_stable_envelope_hash hashFn (add_timeline_entry env a iso ed er oc bs act)
          = compute_stable_envelope_hash hashFn env)
    ∧ (∀ env iso,
        compute_stable_envelope_hash hashFn (set_envelope_timestamp env iso)
          = compute_stable_envelope_hash hashFn env)
    ∧ (∀ env v,
        compute_stable_envelope_hash hashFn (setKey "developer_message" v env)
          = compute_stable_envelope_hash hashFn env)
    ∧ (∀ env v,
        compute_stable_envelope_hash hashFn (setKey "developer_flag_reason" v env)
          = compute_stable_envelope_hash hashFn env) := by
  refine ⟨?_, ?_, ?_, ?_, ?_, ?_⟩
  · intro e1 e2 h1 h2 hagree
    apply stable_hash_ext hashFn e1 e2 h1 h2
    intro k hk
    apply hagree
    intro hmem
    apply hk
    have hsub : ∀ a, a ∈ SPEC_VOLATILE → a ∈ VOLATILE_KEYS := by
      intro a ha
      fin_cases ha
      all_goals decide
    exact hsub k hmem
  · intro env ts success note bs fc
    exact hash_setKey_volatile hashFn (by decide) _ env
  · intro env a iso ed er oc bs act
    exact hash_setKey_volatile hashFn (by decide) _ env
  · intro env iso
    exact hash_setKey_volatile hashFn (by decide) _ env
  · intro env v
    exact hash_setKey_volatile hashFn (by decide) _ env
  · intro env v
    exact hash_setKey_volatile hashFn (by decide) _ env

/-- C3 witness: two concrete envelopes differing only in the volatile
`timestamp` field hash identically. -/
theorem C3_envelope_hash_stability_witness :
    compute_stable_envelope_hash (fun s => s)
        [("patch_id", .str "p"), ("timestamp", .str "a")]
      = compute_stable_envelope_hash (fun s => s)
        [("patch_id", .str "p"), ("timestamp", .str "b")] := by
  apply (C3_envelope_hash_stability (fun s => s)).1
  · show (["patch_id", "timestamp"] : List String).Nodup
    decide
  · show (["patch_id", "timestamp"] : List String).Nodup
    decide
  · intro k hk
    by_cases h1 : k = "patch_id"
    · subst h1
      rfl
    · have h2 : k ≠ "timestamp" := by
        intro h
        subst h
        exact hk (by decide)
      rw [lookupKey_cons_ne (fun h => h1 h.symm), lookupKey_cons_ne (fun h => h2 h.symm),
        lookupKey_cons_ne (fun h => h1 h.symm), lookupKey_cons_ne (fun h => h2 h.symm)]

/-! ### The PatchEnvelope object surface (envelope.py) -/

/-- `PatchEnvelope.mark_success` (envelope.py lines 234–235): writes
`self._data["success"] = bool(success)` unconditionally — no latch. -/
def PatchEnvelope.mark_success (env : JObj) (success : Bool) : JObj :=
  setKey "success" (.bool success) env

/-- The `success` property setter (envelope.py lines 113–115): delegates to
`PatchEnvelope.mark_success`. -/
def PatchEnvelope.success_setter (env : JObj) (value : Bool) : JObj :=
  PatchEnvelope.mark_success env value

/-- C2.  The success latch fails on the object surface: on an envelope whose
`success` is already `true`, `PatchEnvelope.mark_success(False)` (and hence
the `success` property setter) resets it to `false`, while the dict-level
helper `mark_success` of envelope_helpers.py latches as documented. -/
theorem C2_success_latch_code_bug :
    lookupKey "success"
        (PatchEnvelope.success_setter [("patch_id", .str "p"), ("success", .bool true)] false)
      = some (.bool false)
    ∧ lookupKey "success"
        (mark_success [("patch_id", .str "p"), ("success", .bool true)] false)
      = some (.bool true) := by
  exact ⟨rfl, rfl⟩

/-! ### Error delta (ai-debugging.py lines 85–128) -/

/-- Python `==` on JSON-shaped values.  In the modelled code it is only ever
applied to scalar leaves (strings, ints, `None`); for those it coincides with
Python equality. -/
def jsonEqb : Json → Json → Bool
  | .null, .null => true
  | .bool a, .bool b => a == b
  | .num a, .num b => a == b
  | .str a, .str b => a == b
  | .arr xs, .arr ys => jsonListEqb xs ys
  | .obj xs, .obj ys => jsonObjEqb xs ys
  | _, _ => false
where
  jsonListEqb : List Json → List Json → Bool
    | [], [] => true
    | x :: xs, y :: ys => jsonEqb x y && jsonListEqb xs ys
    | _, _ => false
  jsonObjEqb : List (String × Json) → List (String × Json) → Bool
    | [], [] => true
    | (k, x) :: xs, (k', y) :: ys => k == k' && jsonEqb x y && jsonObjEqb xs ys
    | _, _ => false

/-- Python `str()` of a scalar, as interpolated into f-strings.  Containers
are abbreviated (no modelled string ever interpolates one). -/
def pyStr : Json → String
  | .null => "None"
  | .bool true => "True"
  | .bool false => "False"
  | .num q => toString q
  | .str s => s
  | .arr _ => "[...]"
  | .obj _ => "\x7b...\x7d"

/-- `error_delta(prev_raw, cur_raw)` (ai-debugging.py lines 85–128), verbatim:
note that it reads the error code under the key `error_code` on both packets. -/
def error_delta (prev_raw cur_raw : Option JObj) : JObj :=
  if !truthyObj prev_raw then
    [("kind", .str "first"), ("details", .str "Initial attempt, no previous baseline")]
  else
    let p := prev_raw.getD []
    if (!truthyObj cur_raw) || jsonEqb (pyGet (cur_raw.getD []) "status") (.str "clean") then
      [("kind", .str "resolved"),
       ("details", .str "Error eliminated - zero gradient achieved"),
       ("from_line", pyGet p "line"),
       ("from_code", pyGet p "error_code")]
    else
      let c := cur_raw.getD []
      if jsonEqb (pyGet p "error_code") (pyGet c "error_code") then
        let moved := (!jsonEqb (pyGet p "line") (pyGet c "line"))
          || (!jsonEqb (pyGet p "file") (pyGet c "file"))
        let progress_note := if moved
          then " (moved from line " ++ pyStr (pyGet p "line") ++ ")"
          else " (same location)"
        [("kind", .str "same_error"), ("moved", .bool moved),
         ("details", .str ("Error persists at line " ++ pyStr (pyGet c "line")
           ++ progress_note)),
         ("prev_line", pyGet p "line"), ("cur_line", pyGet c "line")]
      else
        [("kind", .str "mutated"), ("from", pyGet p "error_code"),
         ("to", pyGet c "error_code"),
         ("details", .str ("Error changed from " ++ pyStr (pyGet p "error_code")
           ++ " to " ++ pyStr (pyGet c "error_code"))),
         ("prev_line", pyGet p "line"), ("cur_line", pyGet c "line")]

/-- C6.  Code bug: diagnostic packets (re-banker output, classify.py lines
98–112 and the packets built in ai-debugging.py lines 350–404) store the
error code under the key `code`, but `error_delta` compares the key
`error_code`, which neither packet carries — so two packets with different
codes are classified `same_error` instead of `mutated`. -/
theorem C6_error_delta_reads_wrong_key :
    lookupKey "code"
        ([("file", .str "a.py"), ("line", .num 3), ("message", .str "bad"),
          ("code", .str "SYN.MISSING_COLON")] : JObj)
      = some (.str "SYN.MISSING_COLON")
    ∧ lookupKey "code"
        ([("file", .str "a.py"), ("line", .num 3), ("message", .str "worse"),
          ("code", .str "RES.NAME_ERROR")] : JObj)
      = some (.str "RES.NAME_ERROR")
    ∧ Json.str "SYN.MISSING_COLON" ≠ Json.str "RES.NAME_ERROR"
    ∧ lookupKey "kind"
        (error_delta
          (some [("file", .str "a.py"), ("line", .num 3), ("message", .str "bad"),
                 ("code", .str "SYN.MISSING_COLON")])
          (some [("file", .str "a.py"), ("line", .num 3), ("message", .str "worse"),
                 ("code", .str "RES.NAME_ERROR")]))
      = some (.str "same_error")
    ∧ lookupKey "moved"
        (error_delta
          (some [("file", .str "a.py"), ("line", .num 3), ("message", .str "bad"),
                 ("code", .str "SYN.MISSING_COLON")])
          (some [("file", .str "a.py"), ("line", .num 3), ("message", .str "worse"),
                 ("code", .str "RES.NAME_ERROR")]))
      = some (.bool false) := by
  refine ⟨rfl, rfl, ?_, rfl, rfl⟩
  intro h
  have h' : "SYN.MISSING_COLON" = "RES.NAME_ERROR" := Json.str.inj h
  exact absurd h' (by decide)

/-- C10.  At the `error_delta` interface a missing, `None` or empty current
packet is indistinguishable from a genuinely clean run: with any non-empty
prior packet, all three yield kind `resolved`. -/
theorem C10_error_delta_falsy_current_resolved (p : JObj) (hp : p ≠ []) :
    lookupKey "kind" (error_delta (some p) none) = some (.str "resolved")
    ∧ lookupKey "kind" (error_delta (some p) (some [])) = some (.str "resolved")
    ∧ lookupKey "kind" (error_delta (some p) (some [("status", .str "clean")]))
      = some (.str "resolved") := by
  cases p with
  | nil => exact absurd rfl hp
  | cons hd tl => exact ⟨rfl, rfl, rfl⟩

/-- C10 witness at a concrete prior packet. -/
theorem C10_error_delta_falsy_current_resolved_witness :
    lookupKey "kind"
        (error_delta (some [("code", .str "SYN.MISSING_COLON")]) none)
      = some (.str "resolved")
    ∧ lookupKey "kind"
        (error_delta (some [("code", .str "SYN.MISSING_COLON")]) (some []))
      = some (.str "resolved")
    ∧ lookupKey "kind"
        (error_delta (some [("code", .str "SYN.MISSING_COLON")])
          (some [("status", .str "clean")]))
      = some (.str "resolved") :=
  C10_error_delta_falsy_current_resolved
    [("code", .str "SYN.MISSING_COLON")] (List.cons_ne_nil _ _)

/-! ### Cascading error handler (cascading_error_handler.py lines 204–375) -/

structure ChainEntry where
  error_type : String
  error_message : String
  confidence_score : ℚ
  attempt_number : ℤ
  timestamp : String
  is_cascading : Bool

structure CascadingErrorHandler where
  error_chain : List ChainEntry
  max_cascade_depth : ℕ
  max_attempts_per_error : ℕ

/-- `CascadingErrorHandler.__init__` (lines 210–213). -/
def CascadingErrorHandler.init : CascadingErrorHandler := ⟨[], 5, 3⟩

/-- `add_error_to_chain` (lines 215–239); `timestamp` is the resolved ISO time. -/
def add_error_to_chain (h : CascadingErrorHandler) (error_type error_message : String)
    (confidence_score : ℚ) (attempt_number : ℤ) (timestamp : String) :
    CascadingErrorHandler :=
  let entry : ChainEntry :=
    ⟨error_type, error_message, confidence_score, attempt_number, timestamp,
     !h.error_chain.isEmpty⟩
  { h with error_chain := h.error_chain ++ [entry] }

/-- `chain[-3:]` and friends. -/
def lastN {α : Type} (n : ℕ) (l : List α) : List α := l.drop (l.length - n)

/-- `_has_repeating_pattern` (lines 270–279). -/
def hasRepeatingPattern (h : CascadingErrorHandler) : Bool :=
  if h.error_chain.length < 3 then false
  else
    match (lastN 3 h.error_chain).map (fun e => e.error_type) with
    | [a, b, c] => a == b && b == c
    | _ => false

/-- `_has_degrading_confidence` (lines 281–287). -/
def hasDegradingConfidence (h : CascadingErrorHandler) : Bool :=
  if h.error_chain.length < 3 then false
  else
    match (lastN 3 h.error_chain).map (fun e => e.confidence_score) with
    | [a, b, c] => decide (a > b) && decide (b > c)
    | _ => false

/-- `severity_levels.get(error_type, 1)` (lines 294–305). -/
def severity_levels (s : String) : ℕ :=
  if s = "syntax" then 1
  else if s = "logic" then 2
  else if s = "runtime" then 3
  else if s = "performance" then 4
  else if s = "security" then 5
  else 1

/-- `_has_error_escalation` (lines 289–310): severities of `chain[-3:]`, true
when at least two and the last is strictly above the second-to-last. -/
def hasErrorEscalation (h : CascadingErrorHandler) : Bool :=
  if h.error_chain.length < 2 then false
  else
    match (lastN 3 h.error_chain).map (fun e => severity_levels e.error_type) with
    | [a, b] => decide (b > a)
    | [_, b, c] => decide (c > b)
    | _ => false

/-- `should_stop_attempting` (lines 241–268). -/
def should_stop_attempting (h : CascadingErrorHandler) : Bool × String :=
  if h.error_chain.length = 0 then (false, "No errors in chain")
  else if h.error_chain.length ≥ h.max_cascade_depth then
    (true, "Cascade depth exceeded (" ++ toString h.error_chain.length ++ " >= "
      ++ toString h.max_cascade_depth ++ ")")
  else if hasRepeatingPattern h then (true, "Repeating error pattern detected")
  else if hasDegradingConfidence h then
    (true, "Confidence scores degrading with each attempt")
  else if hasErrorEscalation h then
    (true, "Error severity escalating with each fix attempt")
  else (false, "Continue attempting fixes")

/-- `reset_cascade` (lines 365–367). -/
def reset_cascade (h : CascadingErrorHandler) : CascadingErrorHandler :=
  { h with error_chain := [] }

/-- C7 counterexample: three consecutive `logic` failures make
`should_stop_attempting` return true (repeating pattern), but appending one
more `syntax` failure makes it return false again — the stop is not sticky. -/
theorem C7_cascade_stop_not_sticky_cex :
    should_stop_attempting
        (add_error_to_chain
          (add_error_to_chain
            (add_error_to_chain CascadingErrorHandler.init "logic" "m1" (1/2) 1 "t1")
            "logic" "m2" (1/2) 2 "t2")
          "logic" "m3" (1/2) 3 "t3")
      = (true, "Repeating error pattern detected")
    ∧ should_stop_attempting
        (add_error_to_chain
          (add_error_to_chain
            (add_error_to_chain
              (add_error_to_chain CascadingErrorHandler.init "logic" "m1" (1/2) 1 "t1")
              "logic" "m2" (1/2) 2 "t2")
            "logic" "m3" (1/2) 3 "t3")
          "syntax" "m4" (1/2) 4 "t4")
      = (false, "Continue attempting fixes") := by
  constructor
  · rfl
  · with_unfolding_all decide

theorem add_error_chain_shape (h : CascadingErrorHandler) (et em : String) (cs : ℚ)
    (an : ℤ) (ts : String) :
    (add_error_to_chain h et em cs an ts).error_chain.length
        = h.error_chain.length + 1
    ∧ (add_error_to_chain h et em cs an ts).max_cascade_depth = h.max_cascade_depth := by
  constructor
  · simp [add_error_to_chain]
  · rfl

theorem should_stop_of_depth (h : CascadingErrorHandler)
    (hpos : 0 < h.max_cascade_depth)
    (hdepth : h.max_cascade_depth ≤ h.error_chain.length) :
    (should_stop_attempting h).1 = true := by
  unfold should_stop_attempting
  have hne : ¬ h.error_chain.length = 0 := by omega
  rw [if_neg hne, if_pos hdepth]

/-- C7 amended: only the depth-based stop is sticky.  Once the chain length
has reached `max_cascade_depth` (a positive bound), `should_stop_attempting`
returns true and keeps returning true after any further
`add_error_to_chain` appends, until `reset_cascade`; a repeating-pattern
stop below the depth bound can be undone by a later append (see the
counterexample). -/
theorem C7_cascade_stop_sticky_amended (h : CascadingErrorHandler)
    (hpos : 0 < h.max_cascade_depth)
    (hdepth : h.max_cascade_depth ≤ h.error_chain.length) :
    (should_stop_attempting h).1 = true
    ∧ (∀ extra : List (String × String × ℚ × ℤ × String),
        (should_stop_attempting
          (extra.foldl
            (fun acc e => add_error_to_chain acc e.1 e.2.1 e.2.2.1 e.2.2.2.1 e.2.2.2.2)
            h)).1 = true)
    ∧ (should_stop_attempting (reset_cascade h)).1 = false := by
  refine ⟨should_stop_of_depth h hpos hdepth, ?_, ?_⟩
  · intro extra
    induction extra generalizing h with
    | nil => exact should_stop_of_depth h hpos hdepth
    | cons e rest ih =>
        have hshape := add_error_chain_shape h e.1 e.2.1 e.2.2.1 e.2.2.2.1 e.2.2.2.2
        apply ih
        · rw [hshape.2]
          exact hpos
        · rw [hshape.2, hshape.1]
          omega
  · rfl

/-- C7 witness: a five-deep chain stops, keeps stopping after one more
append, and stops stopping after a reset. -/
theorem C7_cascade_stop_sticky_witness :
    (should_stop_attempting
      (add_error_to_chain
        (add_error_to_chain
          (add_error_to_chain
            (add_error_to_chain
              (add_error_to_chain CascadingErrorHandler.init "logic" "m1" (1/2) 1 "t1")
              "syntax" "m2" (1/2) 2 "t2")
            "logic" "m3" (1/2) 3 "t3")
          "runtime" "m4" (1/2) 4 "t4")
        "logic" "m5" (1/2) 5 "t5")).1 = true
    ∧ (should_stop_attempting
        (add_error_to_chain
          (add_error_to_chain
            (add_error_to_chain
              (add_error_to_chain
                (add_error_to_chain
                  (add_error_to_chain CascadingErrorHandler.init "logic" "m1" (1/2) 1 "t1")
                  "syntax" "m2" (1/2) 2 "t2")
                "logic" "m3" (1/2) 3 "t3")
              "runtime" "m4" (1/2) 4 "t4")
            "logic" "m5" (1/2) 5 "t5")
          "syntax" "m6" (1/2) 6 "t6")).1 = true
    ∧ (should_stop_attempting
        (reset_cascade
          (add_error_to_chain
            (add_error_to_chain
              (add_error_to_chain
                (add_error_to_chain
                  (add_error_to_chain CascadingErrorHandler.init "logic" "m1" (1/2) 1 "t1")
                  "syntax" "m2" (1/2) 2 "t2")
                "logic" "m3" (1/2) 3 "t3")
              "runtime" "m4" (1/2) 4 "t4")
            "logic" "m5" (1/2) 5 "t5"))).1 = false := by
  have h := C7_cascade_stop_sticky_amended
    (add_error_to_chain
      (add_error_to_chain
        (add_error_to_chain
          (add_error_to_chain
            (add_error_to_chain CascadingErrorHandler.init "logic" "m1" (1/2) 1 "t1")
            "syntax" "m2" (1/2) 2 "t2")
          "logic" "m3" (1/2) 3 "t3")
        "runtime" "m4" (1/2) 4 "t4")
      "logic" "m5" (1/2) 5 "t5")
    (by decide) (by decide)
  exact ⟨h.1, h.2.1 [("syntax", "m6", 1/2, 6, "t6")], h.2.2⟩

/-! ### Dual circuit breaker (confidence_scoring.py lines 235–333) -/

inductive ErrorType where
  | syntaxType
  | logicType
  | runtimeType
  | performanceType
  | securityType
  deriving DecidableEq

inductive CircuitState where
  | closed
  | syntaxOpen
  | logicOpen
  | permanentlyOpen
  deriving DecidableEq

structure DualCircuitBreaker where
  syntax_max_attempts : ℕ
  logic_max_attempts : ℕ
  syntax_error_budget : ℚ
  logic_error_budget : ℚ
  syntax_attempts : ℕ
  logic_attempts : ℕ
  total_attempts : ℕ
  syntax_errors : ℕ
  logic_errors : ℕ
  circuit_state : CircuitState
  last_attempt_time : Option String

/-- `DualCircuitBreaker.__init__` + `reset` (lines 240–261). -/
def DualCircuitBreaker.init (syntax_max_attempts logic_max_attempts : ℕ)
    (syntax_error_budget logic_error_budget : ℚ) : DualCircuitBreaker :=
  ⟨syntax_max_attempts, logic_max_attempts, syntax_error_budget, logic_error_budget,
   0, 0, 0, 0, 0, .closed, none⟩

/-- `reset` (lines 253–261). -/
def DualCircuitBreaker.reset (b : DualCircuitBreaker) : DualCircuitBreaker :=
  { b with syntax_attempts := 0, logic_attempts := 0, total_attempts := 0,
           syntax_errors := 0, logic_errors := 0, circuit_state := .closed,
           last_attempt_time := none }

/-- `can_attempt` (lines 263–289). -/
def can_attempt (b : DualCircuitBreaker) (error_type : ErrorType) : Bool × String :=
  if b.circuit_state = .permanentlyOpen then
    (false, "Circuit breaker permanently open")
  else if error_type = .syntaxType then
    if b.circuit_state = .syntaxOpen then (false, "Syntax circuit breaker open")
    else if b.syntax_attempts ≥ b.syntax_max_attempts then
      (false, "Syntax attempts exceeded (" ++ toString b.syntax_attempts ++ "/"
        ++ toString b.syntax_max_attempts ++ ")")
    else if (b.syntax_errors : ℚ) / ((max 1 b.syntax_attempts : ℕ) : ℚ)
        > b.syntax_error_budget then
      (false, "Syntax error rate exceeded budget (" ++ toString b.syntax_errors ++ "/"
        ++ toString b.syntax_attempts ++ ")")
    else (true, "OK")
  else if error_type = .logicType ∨ error_type = .runtimeType then
    if b.circuit_state = .logicOpen then (false, "Logic circuit breaker open")
    else if b.logic_attempts ≥ b.logic_max_attempts then
      (false, "Logic attempts exceeded (" ++ toString b.logic_attempts ++ "/"
        ++ toString b.logic_max_attempts ++ ")")
    else if (b.logic_errors : ℚ) / ((max 1 b.logic_attempts : ℕ) : ℚ)
        > b.logic_error_budget then
      (false, "Logic error rate exceeded budget (" ++ toString b.logic_errors ++ "/"
        ++ toString b.logic_attempts ++ ")")
    else (true, "OK")
  else (true, "OK")

/-- `record_attempt` (lines 291–320), including the final
"if both circuits are open, permanently open" check exactly as coded:
`circuit_state == SYNTAX_OPEN and logic_attempts >= logic_max_attempts`. -/
def record_attempt (b : DualCircuitBreaker) (error_type : ErrorType)
    (success : Bool) : DualCircuitBreaker :=
  let b : DualCircuitBreaker :=
    { b with total_attempts := b.total_attempts + 1,
             last_attempt_time := some "current_timestamp" }
  let b : DualCircuitBreaker :=
    if error_type = .syntaxType then
      let b := { b with syntax_attempts := b.syntax_attempts + 1 }
      if !success then
        let b := { b with syntax_errors := b.syntax_errors + 1 }
        let error_rate := (b.syntax_errors : ℚ) / (b.syntax_attempts : ℚ)
        if error_rate > b.syntax_error_budget
            ∨ b.syntax_attempts ≥ b.syntax_max_attempts then
          { b with circuit_state := .syntaxOpen }
        else b
      else b
    else if error_type = .logicType ∨ error_type = .runtimeType then
      let b := { b with logic_attempts := b.logic_attempts + 1 }
      if !success then
        let b := { b with logic_errors := b.logic_errors + 1 }
        let error_rate := (b.logic_errors : ℚ) / (b.logic_attempts : ℚ)
        if error_rate > b.logic_error_budget
            ∨ b.logic_attempts ≥ b.logic_max_attempts then
          { b with circuit_state := .logicOpen }
        else b
      else b
    else b
  if b.circuit_state = CircuitState.syntaxOpen ∧ b.logic_attempts ≥ b.logic_max_attempts then
    { b with circuit_state := .permanentlyOpen }
  else b

/-- Python's `"needle" in haystack` on character lists. -/
def isPrefixCharList : List Char → List Char → Bool
  | [], _ => true
  | _ :: _, [] => false
  | p :: ps, h :: hs => p == h && isPrefixCharList ps hs

/-- Python's substring operator `pat in hay` (scans every suffix). -/
def containsSub (hay pat : String) : Bool :=
  go pat.data hay.data
where
  go (pat : List Char) : List Char → Bool
    | [] => isPrefixCharList pat []
    | h :: hs => isPrefixCharList pat (h :: hs) || go pat hs

/-- The breaker of scenario S2: defaults 3 / 10 attempts, 3% / 10% budgets. -/
def s2_breaker : DualCircuitBreaker :=
  DualCircuitBreaker.init 3 10 (Rat.divInt 3 100) (Rat.divInt 1 10)

set_option maxRecDepth 100000 in
/-- C5.  Code bug: exhausting both lanes does not always yield
`PERMANENTLY_OPEN`.  With one failing syntax attempt first (tripping the 3%
syntax budget) and then ten failing logic attempts (reaching the logic
maximum), both lanes are exhausted, yet the state is `LOGIC_OPEN`; in the
opposite order the same exhaustion yields `PERMANENTLY_OPEN`. -/
theorem C5_permanently_open_order_dependent :
    ((List.replicate 10 ()).foldl (fun acc _ => record_attempt acc .logicType false)
        (record_attempt s2_breaker .syntaxType false)).circuit_state = .logicOpen
    ∧ ((List.replicate 10 ()).foldl (fun acc _ => record_attempt acc .logicType false)
        (record_attempt s2_breaker .syntaxType false)).logic_attempts = 10
    ∧ ((List.replicate 10 ()).foldl (fun acc _ => record_attempt acc .logicType false)
        (record_attempt s2_breaker .syntaxType false)).syntax_errors = 1
    ∧ ((1 : ℚ) / 1 > Rat.divInt 3 100)
    ∧ ((List.replicate 10 ()).foldl (fun acc _ => record_attempt acc .logicType false)
        (record_attempt s2_breaker .syntaxType false)).circuit_state
      ≠ .permanentlyOpen
    ∧ (record_attempt
        ((List.replicate 10 ()).foldl (fun acc _ => record_attempt acc .logicType false)
          s2_breaker)
        .syntaxType false).circuit_state = .permanentlyOpen := by
  with_unfolding_all decide

/-! ### Unified confidence scorer (confidence_scoring.py lines 30–233)

`math.exp` is transcendental; the embedding takes it as a function parameter
`expF`.  Every theorem below holds for every `expF`, and witnesses
instantiate it concretely.
-/

structure ConfidenceComponents where
  historical_success_rate : ℚ
  pattern_similarity : ℚ
  code_complexity_penalty : ℚ
  test_coverage : ℚ

structure ConfidenceScore where
  overall_confidence : ℚ
  syntax_confidence : ℚ
  logic_confidence : ℚ
  calibration_method : String
  components : ConfidenceComponents

/-- The optional `historical_data` dict: a field is `none` when the key is
absent. -/
structure HistoricalData where
  success_rate : Option ℚ
  pattern_similarity : Option ℚ
  complexity_score : Option ℚ
  test_coverage : Option ℚ

/-- Python `max(list)` (callers guarantee non-emptiness). -/
def pyMax : List ℚ → ℚ
  | [] => 0
  | x :: xs => xs.foldl max x

/-- `_softmax` (lines 105–109). -/
def softmax (expF : ℚ → ℚ) (logits : List ℚ) : List ℚ :=
  let exp_logits := logits.map expF
  let sum_exp := exp_logits.sum
  exp_logits.map (fun e => e / sum_exp)

/-- `_calculate_syntax_confidence` (lines 111–120); 1.2 is 6/5. -/
def calculate_syntax_confidence (probabilities : List ℚ) (error_type : ErrorType) : ℚ :=
  let max_prob := pyMax probabilities
  if error_type = .syntaxType then min (max_prob * Rat.divInt 6 5) 1
  else max_prob

/-- `_calculate_logic_confidence` (lines 122–130); 0.9 is 9/10. -/
def calculate_logic_confidence (probabilities : List ℚ) (error_type : ErrorType) : ℚ :=
  let max_prob := pyMax probabilities
  if error_type = .logicType ∨ error_type = .runtimeType then max_prob * Rat.divInt 9 10
  else max_prob

/-- `_calculate_components` (lines 132–165): values are copied from
`historical_data` unclamped; defaults 0.5 / 1.0; complexity penalty
`max(0.1, 1 − (complexity − 1) × 0.1)`. -/
def calculate_components (historical_data : Option HistoricalData) :
    ConfidenceComponents :=
  let hd := historical_data
  let historical_success : ℚ := match hd with
    | some h => match h.success_rate with
      | some v => v
      | none => Rat.divInt 1 2
    | none => Rat.divInt 1 2
  let pattern_similarity : ℚ := match hd with
    | some h => match h.pattern_similarity with
      | some v => v
      | none => Rat.divInt 1 2
    | none => Rat.divInt 1 2
  let complexity_penalty : ℚ := match hd with
    | some h => match h.complexity_score with
      | some c => max (Rat.divInt 1 10) (1 - (c - 1) * Rat.divInt 1 10)
      | none => 1
    | none => 1
  let test_coverage : ℚ := match hd with
    | some h => match h.test_coverage with
      | some v => v
      | none => Rat.divInt 1 2
    | none => Rat.divInt 1 2
  ⟨historical_success, pattern_similarity, complexity_penalty, test_coverage⟩

/-- `_combine_confidences` (lines 167–190): multiplicative modifiers, final
clamp to [0, 1]. -/
def combine_confidences (syntax_conf logic_conf : ℚ)
    (components : ConfidenceComponents) (error_type : ErrorType) : ℚ :=
  let base_confidence : ℚ :=
    if error_type = .syntaxType then syntax_conf
    else if error_type = .logicType ∨ error_type = .runtimeType then logic_conf
    else (syntax_conf + logic_conf) / 2
  let adjusted := base_confidence * components.historical_success_rate
    * components.pattern_similarity * components.code_complexity_penalty
    * (Rat.divInt 1 2 + components.test_coverage * Rat.divInt 1 2)
  max 0 (min 1 adjusted)

/-- `_beta_calibrate` (lines 192–208). -/
def beta_calibrate (historical_scores : List (ℚ × Bool)) (confidence : ℚ) : ℚ :=
  if historical_scores.length < 10 then confidence
  else
    let correct_predictions := (historical_scores.filter (fun p => p.2)).length
    let total_predictions := historical_scores.length
    if total_predictions = 0 then confidence
    else confidence * Rat.divInt 7 10
      + ((correct_predictions : ℚ) / (total_predictions : ℚ)) * Rat.divInt 3 10

/-- `calculate_confidence` (lines 60–103); `historical_scores` is the
scorer's `self.historical_scores`. -/
def calculate_confidence (expF : ℚ → ℚ) (temperature : ℚ)
    (historical_scores : List (ℚ × Bool)) (logits : List ℚ)
    (error_type : ErrorType) (historical_data : Option HistoricalData) :
    ConfidenceScore :=
  let scaled_logits := logits.map (fun l => l / temperature)
  let probabilities := softmax expF scaled_logits
  let syntax_confidence := calculate_syntax_confidence probabilities error_type
  let logic_confidence := calculate_logic_confidence probabilities error_type
  let components := calculate_components historical_data
  let overall0 := combine_confidences syntax_confidence logic_confidence
    components error_type
  let overall_confidence :=
    if historical_scores.length ≥ 10 then beta_calibrate historical_scores overall0
    else overall0
  ⟨overall_confidence, syntax_confidence, logic_confidence,
   if historical_scores.length < 10 then "temperature_scaling" else "beta_calibration",
   components⟩

/-- `record_outcome` (lines 210–216). -/
def record_outcome (historical_scores : List (ℚ × Bool)) (calibration_samples : ℕ)
    (confidence : ℚ) (was_correct : Bool) : List (ℚ × Bool) :=
  let scores := historical_scores ++ [(confidence, was_correct)]
  if scores.length > calibration_samples then scores.drop 1 else scores

/-- C8 counterexample: `_calculate_components` copies historical values
unclamped, so `success_rate = 2` yields a component of 2 ∉ [0,1], and
`complexity_score = 0` yields a penalty of 1.1 ∉ [0.1, 1.0], refuting the
claimed bounds for arbitrary historical-data inputs. -/
theorem C8_confidence_bounds_cex :
    (calculate_confidence (fun q => q) 1 [] [1] .syntaxType
        (some ⟨some 2, none, some 0, none⟩)).components.historical_success_rate = 2
    ∧ ¬((calculate_confidence (fun q => q) 1 [] [1] .syntaxType
        (some ⟨some 2, none, some 0, none⟩)).components.historical_success_rate ≤ 1)
    ∧ (calculate_confidence (fun q => q) 1 [] [1] .syntaxType
        (some ⟨some 2, none, some 0, none⟩)).components.code_complexity_penalty
      = Rat.divInt 11 10
    ∧ ¬((calculate_confidence (fun q => q) 1 [] [1] .syntaxType
        (some ⟨some 2, none, some 0, none⟩)).components.code_complexity_penalty ≤ 1) := by
  with_unfolding_all decide

theorem combine_confidences_bounds (syntax_conf logic_conf : ℚ)
    (components : ConfidenceComponents) (error_type : ErrorType) :
    0 ≤ combine_confidences syntax_conf logic_conf components error_type
    ∧ combine_confidences syntax_conf logic_conf components error_type ≤ 1 := by
  unfold combine_confidences
  constructor
  · exact le_max_left 0 _
  · apply max_le
    · norm_num
    · exact min_le_left 1 _

theorem beta_calibrate_bounds (historical_scores : List (ℚ × Bool)) (c : ℚ)
    (hc0 : 0 ≤ c) (hc1 : c ≤ 1) :
    0 ≤ beta_calibrate historical_scores c ∧ beta_calibrate historical_scores c ≤ 1 := by
  unfold beta_calibrate
  by_cases hlen : historical_scores.length < 10
  · rw [if_pos hlen]
    exact ⟨hc0, hc1⟩
  · rw [if_neg hlen]
    have hnz : ¬ historical_scores.length = 0 := by omega
    rw [if_neg hnz]
    have hpos : (0 : ℚ) < (historical_scores.length : ℚ) := by
      have : 0 < historical_scores.length := by omega
      exact_mod_cast this
    have hr0 : (0 : ℚ) ≤ ((historical_scores.filter (fun p => p.2)).length : ℚ)
        / (historical_scores.length : ℚ) := by positivity
    have hr1 : ((historical_scores.filter (fun p => p.2)).length : ℚ)
        / (historical_scores.length : ℚ) ≤ 1 := by
      rw [div_le_one hpos]
      exact_mod_cast List.length_filter_le (fun p => p.2) historical_scores
    rw [show Rat.divInt 7 10 = (7 : ℚ) / 10 by
      rw [Rat.divInt_eq_div]; norm_num]
    rw [show Rat.divInt 3 10 = (3 : ℚ) / 10 by
      rw [Rat.divInt_eq_div]; norm_num]
    constructor
    · nlinarith
    · nlinarith

/-- C8 amended.  The overall confidence returned by `calculate_confidence`
is always clamped into [0, 1]; the components equal the supplied historical
values (or the 0.5 / 1.0 defaults), so they lie in [0, 1] — and the
complexity penalty in [0.1, 1.0] — exactly when the supplied
`success_rate`, `pattern_similarity`, `test_coverage` lie in [0, 1] and
`complexity_score` (when present) is at least 1. -/
theorem C8_confidence_bounds_amended (expF : ℚ → ℚ) (temperature : ℚ)
    (historical_scores : List (ℚ × Bool)) (logits : List ℚ) (et : ErrorType)
    (hd : Option HistoricalData)
    (hsr : ∀ h v, hd = some h → h.success_rate = some v → 0 ≤ v ∧ v ≤ 1)
    (hps : ∀ h v, hd = some h → h.pattern_similarity = some v → 0 ≤ v ∧ v ≤ 1)
    (htc : ∀ h v, hd = some h → h.test_coverage = some v → 0 ≤ v ∧ v ≤ 1)
    (hcs : ∀ h v, hd = some h → h.complexity_score = some v → 1 ≤ v) :
    (0 ≤ (calculate_confidence expF temperature historical_scores logits et hd).overall_confidence
      ∧ (calculate_confidence expF temperature historical_scores logits et hd).overall_confidence ≤ 1)
    ∧ (0 ≤ (calculate_components hd).historical_success_rate
      ∧ (calculate_components hd).historical_success_rate ≤ 1)
    ∧ (0 ≤ (calculate_components hd).pattern_similarity
      ∧ (calculate_components hd).pattern_similarity ≤ 1)
    ∧ (0 ≤ (calculate_components hd).test_coverage
      ∧ (calculate_components hd).test_coverage ≤ 1)
    ∧ (Rat.divInt 1 10 ≤ (calculate_components hd).code_complexity_penalty
      ∧ (calculate_components hd).code_complexity_penalty ≤ 1)
    ∧ (calculate_confidence expF temperature historical_scores logits et hd).components
      = calculate_components hd := by
  have half01 : (0 : ℚ) ≤ Rat.divInt 1 2 ∧ Rat.divInt 1 2 ≤ 1 := by
    rw [Rat.divInt_eq_div]
    norm_num
  refine ⟨?_, ?_, ?_, ?_, ?_, rfl⟩
  · have hcomb := combine_confidences_bounds
      (calculate_syntax_confidence
        (softmax expF (logits.map (fun l => l / temperature))) et)
      (calculate_logic_confidence
        (softmax expF (logits.map (fun l => l / temperature))) et)
      (calculate_components hd) et
    show 0 ≤ (if historical_scores.length ≥ 10 then _ else _)
      ∧ (if historical_scores.length ≥ 10 then _ else _) ≤ 1
    by_cases hlen : historical_scores.length ≥ 10
    · rw [if_pos hlen]
      exact beta_calibrate_bounds historical_scores _ hcomb.1 hcomb.2
    · rw [if_neg hlen]
      exact hcomb
  · unfold calculate_components
    cases hd with
    | none => exact half01
    | some h =>
        cases hv : h.success_rate with
        | none => simpa [hv] using half01
        | some v => simpa [hv] using hsr h v rfl hv
  · unfold calculate_components
    cases hd with
    | none => exact half01
    | some h =>
        cases hv : h.pattern_similarity with
        | none => simpa [hv] using half01
        | some v => simpa [hv] using hps h v rfl hv
  · unfold calculate_components
    cases hd with
    | none => exact half01
    | some h =>
        cases hv : h.test_coverage with
        | none => simpa [hv] using half01
        | some v => simpa [hv] using htc h v rfl hv
  · have tenth : Rat.divInt 1 10 = (1 : ℚ) / 10 := by
      rw [Rat.divInt_eq_div]
      norm_num
    unfold calculate_components
    cases hd with
    | none =>
        rw [tenth]
        norm_num
    | some h =>
        cases hv : h.complexity_score with
        | none =>
            simp only [hv]
            rw [tenth]
            norm_num
        | some c =>
            have hc := hcs h c rfl hv
            simp only [hv]
            rw [tenth]
            constructor
            · exact le_max_left _ _
            · apply max_le
              · norm_num
              · nlinarith

/-- C8 witness: in-range historical data at a concrete call. -/
theorem C8_confidence_bounds_witness :
    0 ≤ (calculate_confidence (fun q => q) 1 [] [1] .syntaxType
        (some ⟨some (Rat.divInt 1 2), some (Rat.divInt 1 2), some 2,
               some (Rat.divInt 1 2)⟩)).overall_confidence
    ∧ (calculate_confidence (fun q => q) 1 [] [1] .syntaxType
        (some ⟨some (Rat.divInt 1 2), some (Rat.divInt 1 2), some 2,
               some (Rat.divInt 1 2)⟩)).overall_confidence ≤ 1 := by
  have half01 : (0 : ℚ) ≤ Rat.divInt 1 2 ∧ Rat.divInt 1 2 ≤ 1 := by
    rw [Rat.divInt_eq_div]
    norm_num
  have h := C8_confidence_bounds_amended (fun q => q) 1 [] [1] .syntaxType
    (some ⟨some (Rat.divInt 1 2), some (Rat.divInt 1 2), some 2, some (Rat.divInt 1 2)⟩)
    (by
      intro h v heq hv
      cases heq
      cases hv
      exact half01)
    (by
      intro h v heq hv
      cases heq
      cases hv
      exact half01)
    (by
      intro h v heq hv
      cases heq
      cases hv
      exact half01)
    (by
      intro h v heq hv
      cases heq
      cases hv
      norm_num)
  exact h.1

/-! ### The per-attempt orchestrator (ai-debugging.py)

`process_error` (lines 218–455) is embedded as a pure function over the
orchestrator state.  External effects are passed as inputs: the wall clock
(`now`, `nowIso`) and the generated `patch_id`.  Schema validation (step 1)
cannot fail for envelopes of the generated shape and is modelled as a
no-op, and the human-heuristics step 2 touches no state the later steps
read.  Step 3 then invokes
`self.confidence.calculate_confidence(logits, error_type, historical,
taxonomy_difficulty)` (lines 266–268): four positional arguments — five
counting the bound `self` — against the three-parameter signature
`calculate_confidence(self, logits, error_type, historical_data=None)`
(confidence_scoring.py lines 60–63; `src/tests/test_taxonomy_confidence.py`
imports this module, confirming no four-parameter variant exists).  The
call therefore raises `TypeError` on every invocation that passes the rate
limiter, and steps 4–10 (breaker and cascade gates, risk gate, sandbox,
re-banking with truth-flow freeze, bookkeeping, decision) are unreachable.
A second slip sits on the would-be failure path: line 445 calls
`add_error_to_chain(..., attempt=1)` where the parameter is named
`attempt_number` — another `TypeError`, shadowed by the first.  The model
returns the raise as `.error` and keeps the rate-limit token appended
before it, matching the source's mutation order.
-/

structure HealerPolicy where
  syntax_conf_floor : ℚ
  logic_conf_floor : ℚ
  max_syntax_attempts : ℕ
  max_logic_attempts : ℕ
  syntax_error_budget : ℚ
  logic_error_budget : ℚ
  rate_limit_per_min : ℕ
  sandbox_isolation : String
  require_human_on_risky : Bool
  risky_keywords : List String

/-- Default `HealerPolicy` (lines 131–145). -/
def HealerPolicy.defaults : HealerPolicy :=
  ⟨Rat.divInt 98 100, Rat.divInt 8 10, 3, 10, Rat.divInt 3 100, Rat.divInt 1 10,
   10, "full", true,
   ["database_schema_change", "authentication_bypass", "production_data_modification"]⟩

structure AIDebuggerState where
  policy : HealerPolicy
  breaker : DualCircuitBreaker
  cascade : CascadingErrorHandler
  tokens : List ℚ
  historical_scores : List (ℚ × Bool)

/-- `AIDebugger.__init__` (lines 200–215). -/
def AIDebugger.mkState (policy : HealerPolicy) : AIDebuggerState :=
  ⟨policy,
   DualCircuitBreaker.init policy.max_syntax_attempts policy.max_logic_attempts
     policy.syntax_error_budget policy.logic_error_budget,
   CascadingErrorHandler.init, [], []⟩

structure Patch where
  message : String
  patched_code : String
  original_code : String
  language : String

/-- `json.dumps(patch)` with default separators (string escaping elided — it
only feeds a substring check against keyword literals). -/
def pyDumpsPatch (p : Patch) : String :=
  "\x7b\"message\": \"" ++ p.message ++ "\", \"patched_code\": \"" ++ p.patched_code
    ++ "\", \"original_code\": \"" ++ p.original_code ++ "\", \"language\": \""
    ++ p.language ++ "\"\x7d"

/-- `_is_risky_patch` (lines 508–510). -/
def is_risky_patch (policy : HealerPolicy) (patch : Patch) : Bool :=
  policy.risky_keywords.any (fun k => containsSub (pyDumpsPatch patch).toLower k)

/-- The inner dict stored under a key, `{}` when missing or not a dict. -/
def getObjKey (env : JObj) (k : String) : JObj :=
  match lookupKey k env with
  | some (.obj m) => m
  | _ => []

/-- Rewrite the `metadata` sub-dict in place. -/
def updateMeta (env : JObj) (f : JObj → JObj) : JObj :=
  setKey "metadata" (.obj (f (getObjKey env "metadata"))) env

/-- `AIPatchEnvelope.wrap_patch` + `PatchEnvelope.__init__`
(envelope.py lines 19–64 and 360–375); `patchId`/`nowIso` resolve the
timestamped identifier. -/
def wrap_patch (patchId : String) (nowIso : String) (patch : Patch) : JObj :=
  [("patch_id", .str patchId),
   ("patch_data", .obj
     [("message", .str patch.message), ("patched_code", .str patch.patched_code),
      ("original_code", .str patch.original_code), ("language", .str patch.language)]),
   ("metadata", .obj
     [("created_at", .str nowIso), ("language", .str "python"),
      ("ai_generated", .bool true)]),
   ("attempts", .arr []),
   ("confidenceComponents", .obj []),
   ("breakerState", .str "CLOSED"),
   ("cascadeDepth", .num 0),
   ("resourceUsage", .obj []),
   ("flagged_for_developer", .bool false),
   ("developer_message", .str ""),
   ("developer_flag_reason", .null),
   ("success", .bool false),
   ("trendMetadata", .obj
     [("errorsDetected", .num 0), ("errorsResolved", .num 0),
      ("errorTrend", .str "unknown")]),
   ("counters", .obj []),
   ("timeline", .arr []),
   ("envelopeHash", .null)]

/-- `PatchEnvelope.merge_metadata` (envelope.py lines 223–226). -/
def merge_metadata (env : JObj) (extra : JObj) : JObj :=
  if extra.isEmpty then env
  else updateMeta env (fun m => extra.foldl (fun acc kv => setKey kv.1 kv.2 acc) m)

/-- The decision dict `_finalize` would return (`action` plus the envelope
JSON); no `process_error` call ever constructs one, see below. -/
structure Decision where
  action : String
  envelope : JObj

/-- The `TypeError` raised at ai-debugging.py lines 266–268 by passing
`taxonomy_difficulty` as a fourth positional argument to
`UnifiedConfidenceScorer.calculate_confidence` (confidence_scoring.py
lines 60–63, three parameters). -/
def typeErrorCalculateConfidence : String :=
  "TypeError: UnifiedConfidenceScorer.calculate_confidence() takes from 3 to 4 positional arguments but 5 were given"

set_option linter.unusedVariables false in
/-- `AIDebugger.process_error` (lines 218–455).  The call runs
`_enforce_rate_limit` (lines 512–518: prune tokens older than 60s, raise
if at the limit, else append the new token), wraps the patch and merges
caller metadata (step 1, executed before the raise), passes schema
validation, runs the stateless step 2 — and then raises `TypeError` at the
step-3 `calculate_confidence` call site (see `typeErrorCalculateConfidence`
and the section comment).  Everything after step 3 is dead code, so the
model returns `.error` there; the state carries the token mutations made
before the raise. -/
def process_error (st : AIDebuggerState) (now : ℚ) (nowIso patchId : String)
    (error_type : ErrorType) (message patch_code original_code : String)
    (logits : List ℚ) (historical : Option JObj) (metadata : Option JObj) :
    AIDebuggerState × Except String Decision :=
  -- _enforce_rate_limit (lines 512–518)
  let tokens := st.tokens.filter (fun t => now - t < 60)
  if tokens.length ≥ st.policy.rate_limit_per_min then
    ({ st with tokens := tokens }, .error "Rate limit exceeded for patch attempts")
  else
    let st := { st with tokens := tokens ++ [now] }
    -- step 1: wrap the candidate patch, merge caller metadata
    let patch : Patch := ⟨message, patch_code, original_code, "python"⟩
    let env := wrap_patch patchId nowIso patch
    let _env := match metadata with
      | some m => merge_metadata env m
      | none => env
    -- step 3: calculate_confidence(logits, error_type, historical,
    -- taxonomy_difficulty) — unconditional TypeError (lines 266–268)
    (st, .error typeErrorCalculateConfidence)

/-! ### Retry loop with truth-flow (ai-debugging.py lines 560–706)

The loop is modelled over a per-attempt result source
`attemptFn : ℕ → Except String LoopAttempt` standing for the
`process_error` call of attempt `k`.  That call is not guarded by any
`try`/`except` (only the immutability assertion is wrapped, and re-raised),
so an exception raised by `process_error` propagates out of
`attempt_with_backoff`; backoff sleeps and chat messages carry no state
relevant to the claims.
-/

structure LoopAttempt where
  action : String
  envelope : JObj

/-- Python truthiness of an optional JSON value. -/
def truthyJson : Option Json → Bool
  | none => false
  | some .null => false
  | some (.bool b) => b
  | some (.num q) => !(q == 0)
  | some (.str s) => !(s == "")
  | some (.arr xs) => !xs.isEmpty
  | some (.obj kvs) => !kvs.isEmpty

/-- `assert_rebanker_immutable` (ai-debugging.py lines 67–83): the check
fires only when `rebanker_raw` and `rebanker_hash` are both truthy. -/
def assert_rebanker_immutable (hashFn : String → String) (m : JObj) :
    Except String Unit :=
  let raw := lookupKey "rebanker_raw" m
  let stored := lookupKey "rebanker_hash" m
  if truthyJson raw && truthyJson stored then
    match raw, stored with
    | some r, some s =>
        if jsonEqb (.str (sha256_json hashFn r)) s then .ok ()
        else .error "IMMUTABLE REBANKER INVARIANT VIOLATED"
    | _, _ => .ok ()
  else .ok ()

/-- Only object-shaped raw packets flow into `error_delta`. -/
def jsonAsObj : Option Json → Option JObj
  | some (.obj m) => some m
  | _ => none

structure LoopOutcome where
  result : Except String (Option LoopAttempt)
  attempts_made : ℕ

/-- The body of `attempt_with_backoff`'s `for` loop (lines 607–706):
`k` is the attempt counter, `fuel` the remaining attempts; an exception
from the per-attempt call aborts the loop at attempt `k`. -/
def attempt_with_backoff_go (hashFn : String → String)
    (attemptFn : ℕ → Except String LoopAttempt) :
    ℕ → ℕ → Option Json → Option LoopAttempt → LoopOutcome
  | k, 0, _, last => ⟨.ok last, k - 1⟩
  | k, fuel + 1, prev, _ =>
      match attemptFn k with
      | .error e => ⟨.error e, k⟩
      | .ok result =>
          let meta := getObjKey result.envelope "metadata"
          let cur_raw := lookupKey "rebanker_raw" meta
          match assert_rebanker_immutable hashFn meta with
          | .error e => ⟨.error e, k⟩
          | .ok _ =>
              let delta := error_delta (jsonAsObj prev) (jsonAsObj cur_raw)
              let result' : LoopAttempt :=
                ⟨result.action, updateMeta result.envelope
                  (fun m => setKey "delta_from_prev" (.obj delta) m)⟩
              if result'.action = "PROMOTE" ∨ result'.action = "ROLLBACK"
                  ∨ result'.action = "HUMAN_REVIEW" then
                ⟨.ok (some result'), k⟩
              else
                let prev' := if result'.action = "RETRY" ∨ result'.action = "PAUSE_AND_BACKOFF"
                  then cur_raw else prev
                attempt_with_backoff_go hashFn attemptFn (k + 1) fuel prev' (some result')

/-- `attempt_with_backoff` (lines 560–706): at most `max(1, maxAttempts)`
attempts; returns the final (or last) result, or propagates the fatal
immutability error or an exception of the per-attempt call. -/
def attempt_with_backoff (hashFn : String → String)
    (attemptFn : ℕ → Except String LoopAttempt) (maxAttempts : ℕ) : LoopOutcome :=
  attempt_with_backoff_go hashFn attemptFn 1 (max 1 maxAttempts) none none

set_option maxRecDepth 200000 in
/-- C9.  The claim says a risky patch under `require_human_on_risky`
returns `HUMAN_REVIEW` with a developer-flagged envelope and no sandbox
invocation.  The risk gate sits at step 5 of `process_error`, but step 3
already raises `TypeError` on every call that passes the rate limiter
(four positional arguments to the three-parameter `calculate_confidence`),
so the gate is unreachable: on a concrete risky input under the default
policy the call raises instead of returning any decision — in particular
no `HUMAN_REVIEW` action, no flagged envelope (and also no sandbox call). -/
theorem C9_risk_gate_unreachable :
    is_risky_patch HealerPolicy.defaults
      ⟨"SyntaxError", "database_schema_change", "orig", "python"⟩ = true
    ∧ HealerPolicy.defaults.require_human_on_risky = true
    ∧ (process_error (AIDebugger.mkState HealerPolicy.defaults) 0 "t0" "p0"
        ErrorType.syntaxType "SyntaxError" "database_schema_change" "orig" [1]
        none none).2 = Except.error typeErrorCalculateConfidence := by
  refine ⟨by with_unfolding_all decide, rfl, by with_unfolding_all rfl⟩

/-! ### Scenario S2 (four consecutive syntax-class failures) -/

def s2_st0 : AIDebuggerState := AIDebugger.mkState HealerPolicy.defaults

/-- One S2 step: the `process_error` call of the attempt at time `k`
(syntax-class failure; in the source the sandbox would fail, but execution
never reaches it). -/
def s2_call (st : AIDebuggerState) (k : ℚ) : AIDebuggerState × Except String Decision :=
  process_error st k ("t" ++ toString k) ("patch_" ++ toString k)
    ErrorType.syntaxType "SyntaxError: invalid syntax" "def x(: pass"
    "def x(): pass" [1] none none

def s2_state (st : AIDebuggerState) (k : ℚ) : AIDebuggerState :=
  (s2_call st k).1

set_option maxRecDepth 200000 in
set_option maxHeartbeats 1000000 in
/-- C4.  Scenario S2 cannot be exercised: each of the four syntax-failure
`process_error` calls raises `TypeError` at the step-3
`calculate_confidence` call site, before the breaker is consulted
(step 4) and before any attempt is recorded (step 9), so no attempt is
allowed or denied, the breaker records nothing and stays CLOSED with zero
attempts — the claimed "Syntax attempts exceeded" denial, the ROLLBACK
decision and the SYNTAX_OPEN state never occur.  (On the would-be failure
path a second `TypeError` waits at line 445, `add_error_to_chain(...,
attempt=1)` against the parameter name `attempt_number`.) -/
theorem C4_s2_typeerror :
    (s2_call s2_st0 0).2 = Except.error typeErrorCalculateConfidence
    ∧ (s2_call (s2_state s2_st0 0) 1).2 = Except.error typeErrorCalculateConfidence
    ∧ (s2_call (s2_state (s2_state s2_st0 0) 1) 2).2
      = Except.error typeErrorCalculateConfidence
    ∧ (s2_call (s2_state (s2_state (s2_state s2_st0 0) 1) 2) 3).2
      = Except.error typeErrorCalculateConfidence
    ∧ (s2_state (s2_state (s2_state (s2_state s2_st0 0) 1) 2) 3).breaker.circuit_state
      = CircuitState.closed
    ∧ (s2_state (s2_state (s2_state (s2_state s2_st0 0) 1) 2) 3).breaker.syntax_attempts
      = 0
    ∧ (s2_state (s2_state (s2_state (s2_state s2_st0 0) 1) 2) 3).breaker.total_attempts
      = 0 := by
  refine ⟨by with_unfolding_all rfl, by with_unfolding_all rfl,
    by with_unfolding_all rfl, by with_unfolding_all rfl,
    by with_unfolding_all decide, by with_unfolding_all decide,
    by with_unfolding_all decide⟩

/-- The `process_error` call each retry-loop attempt performs in a fresh
run (any input that passes the rate limiter behaves alike). -/
def c1_call : AIDebuggerState × Except String Decision :=
  process_error (AIDebugger.mkState HealerPolicy.defaults) 0 "t0" "p0"
    ErrorType.syntaxType "SyntaxError: invalid syntax" "def x(: pass"
    "def x(): pass" [1] none none

/-- The attempt stream the retry loop sees when each attempt performs
`c1_call`: the call raises, so every attempt yields the propagated
exception. -/
def c1_attemptFn : ℕ → Except String LoopAttempt := fun _ =>
  match c1_call.2 with
  | .ok d => .ok ⟨d.action, d.envelope⟩
  | .error e => .error e

set_option maxRecDepth 200000 in
/-- C1.  The truth-flow hash invariant is dead code: `process_error`
raises `TypeError` at the step-3 `calculate_confidence` call site, before
re-banking (step 7b) ever stores `rebanker_raw`/`rebanker_hash`, so no
attempt produces an envelope at all; `attempt_with_backoff` propagates the
`TypeError` out of attempt 1 and the run aborts with that exception — not
with the fatal `IMMUTABLE REBANKER INVARIANT VIOLATED` error of
`assert_rebanker_immutable`, whose check is never reached. -/
theorem C1_truth_flow_unreachable :
    c1_call.2 = Except.error typeErrorCalculateConfidence
    ∧ attempt_with_backoff (fun s => s) c1_attemptFn 3
      = ⟨Except.error typeErrorCalculateConfidence, 1⟩
    ∧ typeErrorCalculateConfidence ≠ "IMMUTABLE REBANKER INVARIANT VIOLATED" := by
  refine ⟨by with_unfolding_all rfl, by with_unfolding_all rfl, by decide⟩
